import Mathlib

/-!
Shallow embedding of the graph/port engine of `src/jackd/engine.c` (the jackd
engine), together with theorems settling the frozen claims about it.

Modelling conventions:
* C pointers into the client list / port tables are replaced by dense indices
  (`jack_port_id_t` is an index into the port table, clients are identified by
  their unique `id` field).
* Machine integers that are only compared / incremented are modelled as `Nat`;
  values that can be `-1` sentinels or negative statuses are `Int`.
* The `float` microsecond quantities of `jack_run_cycle` are modelled as `Int`
  (the code only compares them; `WORK_SCALE` is `1.0f`, so no rounding enters).
* Mutexes, file descriptors and shared memory are concurrency plumbing: fifo
  file descriptors are abstracted by a function `fifo_fd : Nat → Int` supplied
  to the functions that call `jack_get_fifo_fd`, and event delivery is recorded
  in an event log instead of being written to a socket.
* The `jack_slist_*` helpers live in `jslist.h`, which is not part of `src/`;
  they are standard singly-linked-list operations and are modelled on `List`
  (prepend is `::`, find is first match, remove drops the first matching node).
  `jack_slist_sort` is modelled from the spec (see its doc comment).
-/

/-- Client types, from `jack.h`'s `ClientInternal | ClientDriver | ClientExternal`
(used via `client->control->type`). -/
inductive jack_client_type where
  | ClientInternal : jack_client_type
  | ClientDriver : jack_client_type
  | ClientExternal : jack_client_type
deriving DecidableEq, Repr

open jack_client_type

/-- Port flags; `engine.c` tests the bits `JackPortIsInput`, `JackPortIsOutput`
and `JackPortIsTerminal` of `shared->flags`, so the bitmask is modelled as a
record of those three bits. -/
structure jack_port_flags where
  is_input : Bool
  is_output : Bool
  is_terminal : Bool
deriving DecidableEq, Repr

/-- One entry of a port type's buffer free-list (`jack_port_buffer_info_t`):
the offset of the buffer inside the type's shared region. -/
structure jack_port_buffer_info_t where
  offset : Nat
deriving DecidableEq, Repr

/-- A port type (`jack_port_type_info_t`) as the engine reads it: its name,
its dense `type_id`, whether a mixdown function is registered (the code only
tests `mixdown == NULL`), and the buffer free-list. -/
structure jack_port_type_info_t where
  type_name : String
  type_id : Nat
  mixdown : Bool
  buffer_freelist : List jack_port_buffer_info_t
deriving DecidableEq, Repr

/-- The shared port descriptor (`jack_port_shared_t`), one slot of
`engine->control->ports`.  `type_id`, `ptype_mixdown` and `ptype_name` are the
fields of the embedded `type_info` copy that the engine reads. -/
structure jack_port_shared_t where
  name : String
  client_id : Nat
  flags : jack_port_flags
  in_use : Bool
  locked : Bool
  latency : Nat
  total_latency : Nat
  offset : Nat
  monitor_requests : Nat
  type_id : Nat
  ptype_mixdown : Bool
  ptype_name : String
deriving DecidableEq, Repr

instance : Inhabited jack_port_shared_t where
  default :=
    { name := "", client_id := 0
      flags := { is_input := false, is_output := false, is_terminal := false }
      in_use := false, locked := false, latency := 0, total_latency := 0
      offset := 0, monitor_requests := 0, type_id := 0
      ptype_mixdown := false, ptype_name := "" }

/-- A connection (`jack_connection_internal_t`): source and destination port
ids (the C code stores pointers to the internal ports). -/
structure jack_connection_internal_t where
  source : Nat
  destination : Nat
deriving DecidableEq, Repr

/-- The server-private side of a port (`jack_port_internal_t`): its connection
list and the buffer-info it currently holds. -/
structure jack_port_internal_t where
  connections : List jack_connection_internal_t
  buffer_info : Option jack_port_buffer_info_t
deriving DecidableEq, Repr

instance : Inhabited jack_port_internal_t where
  default := { connections := [], buffer_info := none }

/-- Event kinds delivered by the engine (subset that the embedded functions
emit). -/
inductive jack_event_type where
  | PortRegistered : jack_event_type
  | PortUnregistered : jack_event_type
  | PortConnected : jack_event_type
  | PortDisconnected : jack_event_type
  | GraphReordered : jack_event_type
  | XRun : jack_event_type
deriving DecidableEq, Repr

open jack_event_type

/-- An event record (`jack_event_t`): kind plus the `x`/`y` payload words the
engine fills in (`x.port_id`/`x.self_id`/`x.n` and `y.other_id`). -/
structure jack_event_t where
  kind : jack_event_type
  x : Nat
  y : Nat
deriving DecidableEq, Repr

/-- A client record: the fields of `jack_client_internal_t` and of its control
block that the embedded engine functions read or write.  `fed_by` holds client
ids (the C code holds pointers; ids are unique). -/
structure jack_client_internal_t where
  id : Nat
  ctype : jack_client_type
  active : Bool
  dead : Bool
  port_register : Bool
  fed_by : List Nat
  execution_order : Nat
  next_client : Option Nat
  subgraph_start_fd : Int
  subgraph_wait_fd : Int
  ports : List Nat
deriving DecidableEq, Repr

/-- The engine state touched by the graph/port functions: the shared port
table (`engine->control->ports`, of size `port_max`), the parallel private
port table (`engine->internal_ports`), the port type table, the client list,
plus two observation logs: delivered events and the writes performed on
`subgraph_wait_fd` fields (the latter records the destination client id and
the value written). -/
structure jack_engine_t where
  control_ports : List jack_port_shared_t
  internal_ports : List jack_port_internal_t
  port_types : List jack_port_type_info_t
  clients : List jack_client_internal_t
  events : List (Nat × jack_event_t)
  wait_fd_writes : List (Nat × Int)
deriving DecidableEq, Repr

/-- `engine->port_max`: the port table is an array of exactly this size. -/
def port_max (e : jack_engine_t) : Nat :=
  e.control_ports.length

/-- Read `engine->control->ports[pid]` (callers index within bounds). -/
def sharedAt (e : jack_engine_t) (pid : Nat) : jack_port_shared_t :=
  e.control_ports.getD pid default

/-- Read `engine->internal_ports[pid].connections`. -/
def connsAt (e : jack_engine_t) (pid : Nat) : List jack_connection_internal_t :=
  (e.internal_ports.getD pid default).connections

/-- Write `engine->control->ports[pid]`. -/
def setShared (e : jack_engine_t) (pid : Nat) (p : jack_port_shared_t) : jack_engine_t :=
  { e with control_ports := e.control_ports.set pid p }

/-- Write `engine->internal_ports[pid].connections`. -/
def setConns (e : jack_engine_t) (pid : Nat) (cs : List jack_connection_internal_t) : jack_engine_t :=
  { e with internal_ports :=
      e.internal_ports.set pid { e.internal_ports.getD pid default with connections := cs } }

/-- Write `engine->internal_ports[pid].buffer_info`. -/
def setBufferInfo (e : jack_engine_t) (pid : Nat) (bi : Option jack_port_buffer_info_t) : jack_engine_t :=
  { e with internal_ports :=
      e.internal_ports.set pid { e.internal_ports.getD pid default with buffer_info := bi } }

/-- `jack_client_internal_by_id`: walk the client list for a matching id. -/
def jack_client_internal_by_id (e : jack_engine_t) (id : Nat) : Option jack_client_internal_t :=
  e.clients.find? (fun c => c.id == id)

/-- Apply `f` to the client with the given id (C mutates through the pointer). -/
def updClient (e : jack_engine_t) (cid : Nat) (f : jack_client_internal_t → jack_client_internal_t) : jack_engine_t :=
  { e with clients := e.clients.map (fun c => if c.id == cid then f c else c) }

/-- `jack_client_is_internal`: true for `ClientInternal` and `ClientDriver`. -/
def jack_client_is_internal (c : jack_client_internal_t) : Bool :=
  c.ctype == ClientInternal || c.ctype == ClientDriver

/-- `jack_deliver_event` as the graph functions use it: a dead client drops the
event, otherwise delivery is recorded in the event log (for an external client
the C code writes the record to the event socket; for an internal client it
runs the matching callback). -/
def jack_deliver_event (e : jack_engine_t) (cid : Nat) (ev : jack_event_t) : jack_engine_t :=
  match jack_client_internal_by_id e cid with
  | none => e
  | some c => if c.dead then e else { e with events := e.events ++ [(cid, ev)] }

/-- `jack_slist_remove`: drop the first node holding the given value. -/
def jack_slist_remove {α : Type} [DecidableEq α] (l : List α) (x : α) : List α :=
  match l with
  | [] => []
  | a :: as => if a = x then as else a :: jack_slist_remove as x

/-- The request payload of `RegisterPort` / `UnRegisterPort`
(`req->x.port_info`): client id, port name, port type name, flags, and the
port id slot the server fills in (used as input by unregister). -/
structure jack_port_info_req where
  client_id : Nat
  name : String
  ptype : String
  flags : jack_port_flags
  port_id : Nat
deriving DecidableEq, Repr

/-- `jack_get_free_port`: scan for the first port slot with `in_use == 0`,
claim it by setting `in_use = 1`, and return its index; `none` when the table
is full.  (The C function returns `(jack_port_id_t) -1` on failure.) -/
def jack_get_free_port (e : jack_engine_t) : Option Nat × jack_engine_t :=
  match e.control_ports.findIdx? (fun p => p.in_use == false) with
  | none => (none, e)
  | some i => (some i, setShared e i { sharedAt e i with in_use := true })

/-- `jack_port_release`: clear the slot's `in_use` bit and return the held
buffer-info (if any) to the front of its port type's free-list. -/
def jack_port_release (e : jack_engine_t) (pid : Nat) : jack_engine_t :=
  let e1 := setShared e pid { sharedAt e pid with in_use := false }
  match (e1.internal_ports.getD pid default).buffer_info with
  | none => e1
  | some bi =>
      let tid := (sharedAt e1 pid).type_id
      let e2 := { e1 with port_types := e1.port_types.map (fun pt =>
        if pt.type_id == tid then { pt with buffer_freelist := bi :: pt.buffer_freelist } else pt) }
      setBufferInfo e2 pid none

/-- `jack_port_assign_buffer`: an input port just aliases its source (offset
0); an output port draws a buffer-info from its type's free-list, failing with
`-1` when the free-list is empty. -/
def jack_port_assign_buffer (e : jack_engine_t) (pid : Nat) : Int × jack_engine_t :=
  if (sharedAt e pid).flags.is_input then
    (0, setShared e pid { sharedAt e pid with offset := 0 })
  else
    let tid := (sharedAt e pid).type_id
    match (e.port_types.find? (fun pt => pt.type_id == tid)) with
    | none => (-1, e)
    | some pt =>
      match pt.buffer_freelist with
      | [] => (-1, e)
      | bi :: rest =>
        let e1 := { e with port_types := e.port_types.map (fun q =>
          if q.type_id == tid then { q with buffer_freelist := rest } else q) }
        let e2 := setShared e1 pid { sharedAt e1 pid with offset := bi.offset }
        (0, setBufferInfo e2 pid (some bi))

/-- `jack_port_registration_notify`: send `PortRegistered`/`PortUnregistered`
for `port_id` to every active client that installed a `port_register`
callback. -/
def jack_port_registration_notify (e : jack_engine_t) (port_id : Nat) (yn : Bool) : jack_engine_t :=
  let ev : jack_event_t := { kind := if yn then PortRegistered else PortUnregistered, x := port_id, y := 0 }
  e.clients.foldl (fun acc c =>
    if ¬ c.active then acc
    else if c.port_register then jack_deliver_event acc c.id ev
    else acc) e

/-- `jack_port_do_register`: look up the type by name, the client by id, claim
a free port slot, fill in the shared descriptor, assign a buffer, and on
success add the port to the owner and notify.  Returns the request status and
the new engine state.  Note: when `jack_port_assign_buffer` fails the function
returns `-1` *without releasing the claimed slot*. -/
def jack_port_do_register (e : jack_engine_t) (req : jack_port_info_req) : Int × jack_engine_t :=
  match e.port_types.findIdx? (fun pt => pt.type_name == req.ptype) with
  | none => (-1, e)
  | some i =>
    match jack_client_internal_by_id e req.client_id with
    | none => (-1, e)
    | some client =>
      match jack_get_free_port e with
      | (none, e1) => (-1, e1)
      | (some port_id, e1) =>
        let pt := e1.port_types.getD i { type_name := "", type_id := 0, mixdown := false, buffer_freelist := [] }
        let e2 := setShared e1 port_id
          { sharedAt e1 port_id with
            name := req.name
            type_id := pt.type_id
            ptype_mixdown := pt.mixdown
            ptype_name := pt.type_name
            client_id := req.client_id
            flags := req.flags
            latency := 0
            monitor_requests := 0
            locked := false }
        let e3 := setConns e2 port_id []
        match jack_port_assign_buffer e3 port_id with
        | (r, e4) =>
          if r ≠ 0 then (-1, e4)
          else
            let e5 := updClient e4 client.id (fun c => { c with ports := port_id :: c.ports })
            let e6 := jack_port_registration_notify e5 port_id true
            (0, e6)

/-- `jack_send_connection_notification`: deliver a `PortConnected` /
`PortDisconnected` event carrying `(self_id, other_id)` to the named client,
if it exists and is active. -/
def jack_send_connection_notification (e : jack_engine_t) (client_id self_id other_id : Nat) (connected : Bool) : jack_engine_t :=
  match jack_client_internal_by_id e client_id with
  | none => e
  | some c =>
    if c.active then
      jack_deliver_event e c.id
        { kind := if connected then PortConnected else PortDisconnected, x := self_id, y := other_id }
    else e

/-- The loop body of `jack_port_disconnect_internal` (everything but the final
optional `jack_sort_graph` call): find the matching connection on the source
port's list, remove it from both endpoints' lists, clear the source's
`monitor_requests` when it was the last connection, and send the two
disconnect notifications.  Returns `-1` when no matching connection exists. -/
def jack_port_disconnect_core (e : jack_engine_t) (srcport dstport : Nat) : Int × jack_engine_t :=
  match (connsAt e srcport).find? (fun c => c.source == srcport && c.destination == dstport) with
  | none => (-1, e)
  | some c =>
    let e1 := setConns e srcport (jack_slist_remove (connsAt e srcport) c)
    let e2 := setConns e1 dstport (jack_slist_remove (connsAt e1 dstport) c)
    let e3 :=
      if connsAt e2 srcport = [] then
        setShared e2 srcport { sharedAt e2 srcport with monitor_requests := 0 }
      else e2
    let e4 := jack_send_connection_notification e3 (sharedAt e3 srcport).client_id srcport dstport false
    let e5 := jack_send_connection_notification e4 (sharedAt e4 dstport).client_id dstport srcport false
    (0, e5)

/-- `jack_port_clear_connections`: disconnect every connection on the port
(iterating a snapshot of its list, as the C code walks saved `next` pointers),
then reset the port's connection list. -/
def jack_port_clear_connections (e : jack_engine_t) (pid : Nat) : jack_engine_t :=
  let e1 := (connsAt e pid).foldl (fun acc c => (jack_port_disconnect_core acc c.source c.destination).2) e
  setConns e1 pid []

/-- `jack_port_do_unregister`.  The C range check is
`port_id < 0 || port_id > engine->port_max` (`jack_port_id_t` is unsigned, so
the first test is vacuous); a request with `port_id == port_max` therefore
passes the check and dereferences `ports[port_max]`, one past the end of the
table — modelled as `none` (undefined behaviour).  In range: reject when the
requesting client does not own the port, else clear connections, release the
slot and buffer, drop the port from the owner and notify. -/
def jack_port_do_unregister (e : jack_engine_t) (req : jack_port_info_req) : Option (Int × jack_engine_t) :=
  if req.port_id > port_max e then some (-1, e)
  else
    match e.control_ports.get? req.port_id with
    | none => none
    | some shared =>
      if shared.client_id ≠ req.client_id then some (-1, e)
      else
        match jack_client_internal_by_id e shared.client_id with
        | none => some (-1, e)
        | some client =>
          let e1 := jack_port_clear_connections e req.port_id
          let e2 := jack_port_release e1 req.port_id
          let e3 := updClient e2 client.id (fun c => { c with ports := jack_slist_remove c.ports req.port_id })
          let e4 := jack_port_registration_notify e3 req.port_id false
          some (0, e4)

/-- Look up a client's current `fed_by` list in a client-list state. -/
def fedByOf (cs : List jack_client_internal_t) (i : Nat) : List Nat :=
  ((cs.find? (fun c => c.id == i)).map (fun c => c.fed_by)).getD []

/-- Replace a client's `fed_by` list in a client-list state. -/
def setFedBy (cs : List jack_client_internal_t) (i : Nat) (fb : List Nat) : List jack_client_internal_t :=
  cs.map (fun c => if c.id == i then { c with fed_by := fb } else c)

/-- `jack_trace_terminal (c1, rbase)`: walk a snapshot of `c1`'s `fed_by`; for
each `c2` distinct from both `rbase` and `c1`, add `c2` to `rbase`'s `fed_by`
unless already present, and recurse into `c2` unless `c1 ∈ c2.fed_by`.  The C
recursion carries no bound (its own FIXME notes it "may end up recursing
infinitely"), so the embedding is fuel-indexed: `none` means the fuel ran out
before the walk returned. -/
def jack_trace_terminal (cs : List jack_client_internal_t) (c1 rbase : Nat) : Nat → Option (List jack_client_internal_t)
  | 0 => none
  | fuel + 1 =>
    let existing := fedByOf cs c1
    existing.foldl (fun acc c2 =>
      match acc with
      | none => none
      | some cs =>
        if c2 ≠ rbase ∧ c2 ≠ c1 then
          let rb := fedByOf cs rbase
          let cs1 := if c2 ∈ rb then cs else setFedBy cs rbase (c2 :: rb)
          if c1 ∈ fedByOf cs1 c2 then some cs1
          else jack_trace_terminal cs1 c2 rbase fuel
        else some cs) (some cs)

/-- `jack_client_sort`, the comparator handed to `jack_slist_sort`: negative
orders `a` before `b`, positive after.  `a` is fed by `b` → `a` comes after
`b`, except that in a feedback loop the driver client is ordered first; the
inner test of the second branch is dead code (its condition contradicts the
enclosing `else`) and is kept as written. -/
def jack_client_sort (a b : jack_client_internal_t) : Int :=
  if b.id ∈ a.fed_by then
    if a.id ∈ b.fed_by ∧ a.ctype = ClientDriver then -1 else 1
  else if a.id ∈ b.fed_by then
    if b.id ∈ a.fed_by ∧ b.ctype = ClientDriver then 1 else -1
  else 0

/-- `jack_client_feeds (might, target)`: does any connection go from one of
`might`'s ports to one of `target`'s ports? -/
def jack_client_feeds (e : jack_engine_t) (might target : jack_client_internal_t) : Bool :=
  might.ports.any (fun pid =>
    (connsAt e pid).any (fun c =>
      (sharedAt e c.source).client_id == might.id &&
      (sharedAt e c.destination).client_id == target.id))

/-- Modelled from the spec: the insertion step of `jack_slist_sort`, whose
implementation (`jslist.h`) is not under `src/`.  The spec says the client
list is *stable-sorted* by the comparator, so a stable insertion is used:
`x` goes before the first element it compares `≤ 0` against. -/
def jack_slist_insert_sorted {α : Type} (cmp : α → α → Int) (x : α) : List α → List α
  | [] => [x]
  | y :: ys => if cmp x y ≤ 0 then x :: y :: ys else y :: jack_slist_insert_sorted cmp x ys

/-- Modelled from the spec: `jack_slist_sort` (`jslist.h` is not under
`src/`); a stable sort by the given comparator. -/
def jack_slist_sort {α : Type} (cmp : α → α → Int) (l : List α) : List α :=
  l.foldr (jack_slist_insert_sorted cmp) []

/-- The recursion core of `jack_get_port_total_latency`, indexed by
`gas = 9 - hop_count`: the C code returns the port's own latency as soon as
`hop_count > 8` (that is, when the gas is exhausted), and otherwise adds the
maximum latency reported over the port's connections, recursing with
`hop_count + 1` on the far end of each connection that is not skipped and not
terminal. -/
def total_latency_go (cp : List jack_port_shared_t) (ip : List jack_port_internal_t) (pid : Nat) (toward_port : Bool) : Nat → Nat
  | 0 => (cp.getD pid default).latency
  | gas + 1 =>
    let latency := (cp.getD pid default).latency
    let conns := (ip.getD pid default).connections
    let max_latency := conns.foldl (fun max_latency c =>
      if (toward_port && c.source == pid) || (!toward_port && c.destination == pid) then
        max_latency
      else
        let this_latency :=
          if c.destination == pid then
            if (cp.getD c.source default).flags.is_terminal then (cp.getD c.source default).latency
            else total_latency_go cp ip c.source toward_port gas
          else
            if (cp.getD c.destination default).flags.is_terminal then (cp.getD c.destination default).latency
            else total_latency_go cp ip c.destination toward_port gas
        if this_latency > max_latency then this_latency else max_latency) 0
    latency + max_latency

/-- `jack_get_port_total_latency (engine, port, hop_count, toward_port)`:
the `hop_count > 8` cutoff of the C code is exactly gas exhaustion at
`gas = 9 - hop_count`, and each recursive call at `hop_count + 1` burns one
unit of gas. -/
def jack_get_port_total_latency (e : jack_engine_t) (pid : Nat) (hop_count : Nat) (toward_port : Bool) : Nat :=
  total_latency_go e.control_ports e.internal_ports pid toward_port (9 - hop_count)

/-- The update `jack_compute_all_port_total_latencies` applies to the port at
index `i`: an in-use port's `total_latency` is recomputed from hop count 0,
walking toward the port when it is not an output. -/
def compute_latency_port (cp : List jack_port_shared_t) (ip : List jack_port_internal_t) (i : Nat) (p : jack_port_shared_t) : jack_port_shared_t :=
  if p.in_use then
    { p with total_latency := total_latency_go cp ip i (if p.flags.is_output then false else true) 9 }
  else p

/-- The loop of `jack_compute_all_port_total_latencies` from slot `i` on. -/
def compute_latency_go (cp : List jack_port_shared_t) (ip : List jack_port_internal_t) : Nat → List jack_port_shared_t → List jack_port_shared_t
  | _, [] => []
  | i, p :: rest => compute_latency_port cp ip i p :: compute_latency_go cp ip (i + 1) rest

/-- The port-table effect of `jack_compute_all_port_total_latencies`. -/
def compute_latency_ports (cp : List jack_port_shared_t) (ip : List jack_port_internal_t) : List jack_port_shared_t :=
  compute_latency_go cp ip 0 cp

/-- `jack_compute_all_port_total_latencies`. -/
def jack_compute_all_port_total_latencies (e : jack_engine_t) : jack_engine_t :=
  { e with control_ports := compute_latency_ports e.control_ports e.internal_ports }

/-- Write a client's `subgraph_wait_fd`, recording the write in the
`wait_fd_writes` log. -/
def set_subgraph_wait_fd (e : jack_engine_t) (cid : Nat) (v : Int) : jack_engine_t :=
  let e1 := updClient e cid (fun c => { c with subgraph_wait_fd := v })
  { e1 with wait_fd_writes := e1.wait_fd_writes ++ [(cid, v)] }

/-- The "find the next active client" scan at the top of
`jack_rechain_graph`'s loop body. -/
def rechain_next_active (e : jack_engine_t) (rest : List Nat) : Option Nat :=
  (rest.filter (fun i =>
    match jack_client_internal_by_id e i with
    | some d => d.active
    | none => false)).head?

/-- One pass of the loop of `jack_rechain_graph` over the remaining client
ids.  State: the fifo counter `n`, the id of the client that opened the
current subgraph (if one is open), and the last value stored into the local
event record's `x.n` field (the C code sets it only for external clients, so
internal clients see a stale value; it starts out uninitialized, modelled as
the initial parameter). -/
def jack_rechain_loop (fifo_fd : Nat → Int) : List Nat → jack_engine_t → Nat → Option Nat → Nat → jack_engine_t × Nat × Option Nat
  | [], e, n, subgraph_client, _ => (e, n, subgraph_client)
  | cid :: rest, e, n, subgraph_client, event_x =>
    match jack_client_internal_by_id e cid with
    | none => jack_rechain_loop fifo_fd rest e n subgraph_client event_x
    | some c =>
      if ¬ c.active then jack_rechain_loop fifo_fd rest e n subgraph_client event_x
      else
        let e := updClient e cid (fun c => { c with execution_order := n, next_client := rechain_next_active e rest })
        if jack_client_is_internal c then
          match subgraph_client with
          | some s =>
            let e := set_subgraph_wait_fd e s (fifo_fd n)
            let e := jack_deliver_event e cid { kind := GraphReordered, x := event_x, y := 0 }
            jack_rechain_loop fifo_fd rest e (n + 1) none event_x
          | none =>
            let e := jack_deliver_event e cid { kind := GraphReordered, x := event_x, y := 0 }
            jack_rechain_loop fifo_fd rest e n none event_x
        else
          match subgraph_client with
          | none =>
            let e := updClient e cid (fun c => { c with subgraph_start_fd := fifo_fd n })
            let e := jack_deliver_event e cid { kind := GraphReordered, x := n, y := 0 }
            jack_rechain_loop fifo_fd rest e (n + 1) (some cid) n
          | some s =>
            let e := set_subgraph_wait_fd e s (-1)
            let e := jack_deliver_event e cid { kind := GraphReordered, x := n, y := 0 }
            jack_rechain_loop fifo_fd rest e (n + 1) (some s) n

/-- `jack_rechain_graph`: clear the fifos (no graph-state effect), walk the
client list assigning execution orders and subgraph fifo endpoints, and close
the last open subgraph at list end.  `fifo_fd` abstracts
`jack_get_fifo_fd (engine, n)`. -/
def jack_rechain_graph (fifo_fd : Nat → Int) (e : jack_engine_t) : jack_engine_t :=
  match jack_rechain_loop fifo_fd (e.clients.map (fun c => c.id)) e 0 none 0 with
  | (e1, n, some s) => set_subgraph_wait_fd e1 s (fifo_fd n)
  | (e1, _, none) => e1

/-- Step 2 of `jack_sort_graph`: run `jack_trace_terminal (c, c)` for each
client in list order, threading the fuel-indexed state. -/
def jack_sort_graph_traces (fuel : Nat) : List Nat → List jack_client_internal_t → Option (List jack_client_internal_t)
  | [], cs => some cs
  | i :: rest, cs =>
    match jack_trace_terminal cs i i fuel with
    | none => none
    | some cs1 => jack_sort_graph_traces fuel rest cs1

/-- `jack_sort_graph`: rebuild each client's direct `fed_by` (prepending in
client-list order, as the C loop does), take the transitive closure with
`jack_trace_terminal`, sort the client list with `jack_client_sort`, recompute
every in-use port's total latency, and rechain the graph.  `none` when the
trace fuel runs out. -/
def jack_sort_graph (fifo_fd : Nat → Int) (fuel : Nat) (e : jack_engine_t) : Option jack_engine_t :=
  let clients1 := e.clients.map (fun c =>
    { c with fed_by := e.clients.foldl (fun acc o =>
        if jack_client_feeds e o c then o.id :: acc else acc) [] })
  match jack_sort_graph_traces fuel (clients1.map (fun c => c.id)) clients1 with
  | none => none
  | some clients2 =>
    let e1 := { e with clients := jack_slist_sort jack_client_sort clients2 }
    let e2 := jack_compute_all_port_total_latencies e1
    some (jack_rechain_graph fifo_fd e2)

/-- `jack_get_port_by_name`: first in-use port with a matching name. -/
def jack_get_port_by_name (e : jack_engine_t) (name : String) : Option Nat :=
  e.control_ports.findIdx? (fun p => p.in_use && p.name == name)

/-- `jack_port_do_connect`: resolve both names, run the validation chain
(destination an input, source an output, neither locked, same type, both
owners known and active, multiple connections only with a mixdown), then
prepend the new connection to both endpoints' lists, re-sort the graph, and
send the two `PortConnected` notifications. -/
def jack_port_do_connect (fifo_fd : Nat → Int) (fuel : Nat) (e : jack_engine_t) (source_port destination_port : String) : Option (Int × jack_engine_t) :=
  match jack_get_port_by_name e source_port with
  | none => some (-1, e)
  | some srcport =>
    match jack_get_port_by_name e destination_port with
    | none => some (-1, e)
    | some dstport =>
      if ¬ (sharedAt e dstport).flags.is_input then some (-1, e)
      else if ¬ (sharedAt e srcport).flags.is_output then some (-1, e)
      else if (sharedAt e srcport).locked then some (-1, e)
      else if (sharedAt e dstport).locked then some (-1, e)
      else if (sharedAt e srcport).type_id ≠ (sharedAt e dstport).type_id then some (-1, e)
      else
        match jack_client_internal_by_id e (sharedAt e srcport).client_id with
        | none => some (-1, e)
        | some srcclient =>
          if ¬ srcclient.active then some (-1, e)
          else
            match jack_client_internal_by_id e (sharedAt e dstport).client_id with
            | none => some (-1, e)
            | some dstclient =>
              if ¬ dstclient.active then some (-1, e)
              else if connsAt e dstport ≠ [] ∧ ¬ (sharedAt e dstport).ptype_mixdown then some (-1, e)
              else
                let c : jack_connection_internal_t := { source := srcport, destination := dstport }
                let e1 := setConns e dstport (c :: connsAt e dstport)
                let e2 := setConns e1 srcport (c :: connsAt e1 srcport)
                match jack_sort_graph fifo_fd fuel e2 with
                | none => none
                | some e3 =>
                  let e4 := jack_send_connection_notification e3 (sharedAt e3 srcport).client_id srcport dstport true
                  let e5 := jack_send_connection_notification e4 (sharedAt e4 dstport).client_id dstport srcport true
                  some (0, e5)

/-- `jack_port_disconnect_internal`: the removal core followed by an optional
graph re-sort. -/
def jack_port_disconnect_internal (fifo_fd : Nat → Int) (fuel : Nat) (e : jack_engine_t) (srcport dstport : Nat) (sort : Bool) : Option (Int × jack_engine_t) :=
  match jack_port_disconnect_core e srcport dstport with
  | (ret, e1) =>
    if sort then (jack_sort_graph fifo_fd fuel e1).map (fun e2 => (ret, e2))
    else some (ret, e1)

/-- `jack_port_do_disconnect`: resolve both names and call
`jack_port_disconnect_internal` with `sort_graph = TRUE`. -/
def jack_port_do_disconnect (fifo_fd : Nat → Int) (fuel : Nat) (e : jack_engine_t) (source_port destination_port : String) : Option (Int × jack_engine_t) :=
  match jack_get_port_by_name e source_port with
  | none => some (-1, e)
  | some srcport =>
    match jack_get_port_by_name e destination_port with
    | none => some (-1, e)
    | some dstport => jack_port_disconnect_internal fifo_fd fuel e srcport dstport true

/-- `jack_port_do_disconnect_all`: reject out-of-range port ids
(`port_id >= port_max`, checked before any state is touched), otherwise clear
every connection on the port and re-sort the graph. -/
def jack_port_do_disconnect_all (fifo_fd : Nat → Int) (fuel : Nat) (e : jack_engine_t) (port_id : Nat) : Option (Int × jack_engine_t) :=
  if port_id ≥ port_max e then some (-1, e)
  else
    let e1 := jack_port_clear_connections e port_id
    (jack_sort_graph fifo_fd fuel e1).map (fun e2 => (0, e2))

/-- The driver operations `jack_run_cycle` invokes, abstracted by their
success (`stop`/`start`/`read`/`write` return 0 on success; their other
behaviour is outside the engine). -/
structure jack_driver_t where
  stop_ok : Bool
  start_ok : Bool
  read_ok : Bool
  write_ok : Bool
deriving DecidableEq, Repr

/-- The state `jack_run_cycle` reads and writes: the engine's `real_time`
flag, its estimated `spare_usecs` (a float, modelled as integral
microseconds; the code tests it for being nonzero and compares it against
`delayed_usecs` with `WORK_SCALE == 1.0f`), the function-static
`consecutive_excessive_delays` counter, and the frame timer. -/
structure run_cycle_state where
  real_time : Bool
  spare_usecs : Int
  consecutive_excessive_delays : Nat
  frame_time : Nat
deriving DecidableEq, Repr

/-- The observable steps a cycle performs, in order. -/
inductive cycle_action where
  | DriverStop : cycle_action
  | XRunToAllClients : cycle_action
  | DriverStart : cycle_action
  | NullCycle : cycle_action
  | DriverRead : cycle_action
  | EngineProcess : cycle_action
  | DriverWrite : cycle_action
  | PostProcess : cycle_action
deriving DecidableEq, Repr

open cycle_action

/-- `jack_run_cycle (engine, nframes, delayed_usecs)`.  Excessive-delay path:
when `real_time` is set, `spare_usecs` is nonzero and
`WORK_SCALE * spare_usecs <= delayed_usecs`, the static counter is
pre-incremented and, once it *exceeds 10*, the cycle returns `-1`; otherwise
the driver is stopped, `XRun` is delivered to all clients
(`jack_engine_notify_clients_about_delay`), the driver restarted, and the
cycle returns 0 (`-1` if stop or restart fails).  Normal path: reset the
counter, advance the frame timer, and run read / process / write /
post-process under the graph try-lock (`try_lock_ok`); a failed try-lock runs
the driver's null cycle, a process error stops the driver and schedules a
restart after post-processing (still returning 0), and a read or write
failure leaves the initial `ret = -1`. -/
def jack_run_cycle (st : run_cycle_state) (driver : jack_driver_t) (try_lock_ok : Bool) (process_failed : Bool) (nframes : Nat) (delayed_usecs : Int) : Int × run_cycle_state × List cycle_action :=
  if st.real_time ∧ st.spare_usecs ≠ 0 ∧ st.spare_usecs ≤ delayed_usecs then
    let st1 := { st with consecutive_excessive_delays := st.consecutive_excessive_delays + 1 }
    if st1.consecutive_excessive_delays > 10 then (-1, st1, [])
    else if ¬ driver.stop_ok then (-1, st1, [DriverStop])
    else if ¬ driver.start_ok then (-1, st1, [DriverStop, XRunToAllClients, DriverStart])
    else (0, st1, [DriverStop, XRunToAllClients, DriverStart])
  else
    let st1 := { st with consecutive_excessive_delays := 0 }
    let st2 := { st1 with frame_time := st1.frame_time + nframes }
    if ¬ try_lock_ok then (0, st2, [NullCycle])
    else if ¬ driver.read_ok then (-1, st2, [DriverRead])
    else if process_failed then (0, st2, [DriverRead, EngineProcess, DriverStop, PostProcess, DriverStart])
    else if ¬ driver.write_ok then (-1, st2, [DriverRead, EngineProcess, DriverWrite])
    else (0, st2, [DriverRead, EngineProcess, DriverWrite, PostProcess])

/-- Iterate `jack_run_cycle` with fixed driver outcomes and cycle inputs,
collecting the returned statuses. -/
def jack_run_cycle_iter (driver : jack_driver_t) (try_lock_ok process_failed : Bool) (nframes : Nat) (delayed_usecs : Int) : Nat → run_cycle_state → List Int × run_cycle_state
  | 0, st => ([], st)
  | n + 1, st =>
    match jack_run_cycle st driver try_lock_ok process_failed nframes delayed_usecs with
    | (r, st1, _) =>
      match jack_run_cycle_iter driver try_lock_ok process_failed nframes delayed_usecs n st1 with
      | (rs, stf) => (r :: rs, stf)

/-- The client states of `jack_client_state_t` that
`jack_process_external` manipulates. -/
inductive jack_client_state where
  | NotTriggered : jack_client_state
  | Triggered : jack_client_state
  | Running : jack_client_state
  | Finished : jack_client_state
deriving DecidableEq, Repr

open jack_client_state

/-- The control-block fields of an external client that
`jack_process_external` touches, plus the server-side `error` counter. -/
structure client_ext_control where
  state : jack_client_state
  signalled_at : Nat
  awake_at : Nat
  finished_at : Nat
  timed_out : Nat
  error : Nat
deriving DecidableEq, Repr

/-- The environment of one `jack_process_external` call: the clock reading
used for `signalled_at`, whether the one-byte write to `subgraph_start_fd`
succeeded, the asio-mode flag and the status `driver->wait` returns in that
mode, the outcome of the `poll` on `subgraph_wait_fd` (failure flag plus the
`POLLIN` and non-`POLLIN` revent bits), the `awake_at` / `finished_at` values
the client process wrote into the shared control block during the wait, and
whether the byte read-back succeeded. -/
structure process_ext_input where
  now : Nat
  write_ok : Bool
  asio_mode : Bool
  driver_wait_status : Int
  poll_failed : Bool
  revents_pollin : Bool
  revents_other : Bool
  awake_at_shared : Nat
  finished_at_shared : Nat
  read_ok : Bool
deriving DecidableEq, Repr

/-- The `status` value `jack_process_external` derives from its wait.  In
asio mode it is whatever `driver->wait` reported.  Otherwise the C code
assigns in sequence: `-1` on poll failure, `-2` on a non-`POLLIN` revent, and
finally 0 if `POLLIN` is set, else 1 — the final if/else always assigns, so
the earlier stores are dead and the effective status is 0 or 1. -/
def jack_process_external_status (inp : process_ext_input) : Int :=
  if inp.asio_mode then inp.driver_wait_status
  else
    let status0 : Int := if inp.poll_failed then -1 else 0
    let status1 : Int := if inp.revents_other then -2 else status0
    let status2 : Int := if inp.revents_pollin then 0 else 1
    let _dead_stores := status1
    status2

/-- `jack_process_external` (the linux variant): mark the client `Triggered`,
stamp `signalled_at`, zero `awake_at`/`finished_at`, write the start byte
(failure: `process_errors++` and stop the dispatch loop), wait on the
subgraph wait fd, and act on the resulting status: nonzero status increments
`process_errors`, stops the loop, and additionally increments the client's
`timed_out` exactly when `awake_at > 0` (the client actually woke); zero
status reads the byte back (failure: `client->error++`, stop) and otherwise
continues the dispatch at the next internal client.  Returns
`(process_errors', control', stop_dispatch)`. -/
def jack_process_external (process_errors : Nat) (ctl : client_ext_control) (inp : process_ext_input) : Nat × client_ext_control × Bool :=
  let ctl0 := { ctl with state := Triggered, signalled_at := inp.now, awake_at := 0, finished_at := 0 }
  if ¬ inp.write_ok then (process_errors + 1, ctl0, true)
  else
    let status := jack_process_external_status inp
    let ctl1 := { ctl0 with awake_at := inp.awake_at_shared, finished_at := inp.finished_at_shared }
    if status ≠ 0 then
      let ctl2 := if ctl1.awake_at > 0 then { ctl1 with timed_out := ctl1.timed_out + 1 } else ctl1
      (process_errors + 1, ctl2, true)
    else if ¬ inp.read_ok then (process_errors, { ctl1 with error := ctl1.error + 1 }, true)
    else (process_errors, ctl1, false)

/-- Divergence of the fuel-indexed `jack_trace_terminal` on a given state and
call: no amount of fuel makes the walk return. -/
def jack_trace_terminal_diverges (cs : List jack_client_internal_t) (c1 rbase : Nat) : Prop :=
  ∀ fuel : Nat, jack_trace_terminal cs c1 rbase fuel = none

/-- A client record with neutral bookkeeping fields, used to build concrete
engine states. -/
def mkClient (i : Nat) (t : jack_client_type) : jack_client_internal_t :=
  { id := i, ctype := t, active := true, dead := false, port_register := false
    fed_by := [], execution_order := 0, next_client := none
    subgraph_start_fd := 0, subgraph_wait_fd := 0, ports := [] }

/-- A blank in-use port descriptor, used to build concrete engine states. -/
def mkPort (nm : String) (cid : Nat) (fl : jack_port_flags) : jack_port_shared_t :=
  { name := nm, client_id := cid, flags := fl, in_use := true, locked := false
    latency := 0, total_latency := 0, offset := 0, monitor_requests := 0
    type_id := 0, ptype_mixdown := false, ptype_name := "audio" }

/-- Output-port flags. -/
def outFlags : jack_port_flags :=
  { is_input := false, is_output := true, is_terminal := false }

/-- Input-port flags. -/
def inFlags : jack_port_flags :=
  { is_input := true, is_output := false, is_terminal := false }

/-- The identity fifo table used to instantiate `fifo_fd` in concrete runs. -/
def fifoId (n : Nat) : Int :=
  Int.ofNat n

/-- Engine for the register-with-empty-free-list scenario: one "audio" port
type whose buffer free-list is empty, one free port slot, one client. -/
def engineEmptyFreelist : jack_engine_t :=
  { control_ports := [{ (default : jack_port_shared_t) with ptype_name := "audio" }]
    internal_ports := [default]
    port_types := [{ type_name := "audio", type_id := 0, mixdown := false, buffer_freelist := [] }]
    clients := [mkClient 0 ClientExternal]
    events := []
    wait_fd_writes := [] }

/-- The register request of the empty-free-list scenario: client 0 registers
an output port on type "audio". -/
def reqEmptyFreelist : jack_port_info_req :=
  { client_id := 0, name := "c0:out", ptype := "audio", flags := outFlags, port_id := 0 }

/-- Engine for the unregister range-check scenario: `port_max = 1`, the one
slot owned by client 0. -/
def engineUnregister : jack_engine_t :=
  { control_ports := [mkPort "c0:out" 0 outFlags]
    internal_ports := [default]
    port_types := [{ type_name := "audio", type_id := 0, mixdown := false, buffer_freelist := [] }]
    clients := [mkClient 0 ClientExternal]
    events := []
    wait_fd_writes := [] }

/-- A client record carrying only an id and a `fed_by` list, for the
`jack_trace_terminal` states. -/
def traceClient (i : Nat) (fb : List Nat) : jack_client_internal_t :=
  { mkClient i ClientExternal with fed_by := fb }

/-- The client graph on which `jack_trace_terminal` diverges: client 0 is fed
directly by 1, and 1, 2, 3 form the directed `fed_by` cycle
`1 ← 2 ← 3 ← 1` (connections `2 → 1`, `3 → 2`, `1 → 3`, plus `1 → 0`);
this is exactly the direct-feeds state `jack_sort_graph` hands to the trace. -/
def traceState0 : List jack_client_internal_t :=
  [traceClient 0 [1], traceClient 1 [2], traceClient 2 [3], traceClient 3 [1]]

/-- `traceState0` after the walk has added client 2 to client 0's `fed_by`. -/
def traceState1 : List jack_client_internal_t :=
  [traceClient 0 [2, 1], traceClient 1 [2], traceClient 2 [3], traceClient 3 [1]]

/-- `traceState0` after the walk has added clients 2 and 3 to client 0's
`fed_by`; from here the recursion cycles without changing the state. -/
def traceStateFix : List jack_client_internal_t :=
  [traceClient 0 [3, 2, 1], traceClient 1 [2], traceClient 2 [3], traceClient 3 [1]]

/-- Engine for the execution-order scenario: two active *internal* clients,
client 0 owning output port 0 connected to input port 1 owned by client 1. -/
def engineTwoInternal : jack_engine_t :=
  { control_ports := [mkPort "a:out" 0 outFlags, mkPort "b:in" 1 inFlags]
    internal_ports :=
      [{ connections := [{ source := 0, destination := 1 }], buffer_info := none }
      , { connections := [{ source := 0, destination := 1 }], buffer_info := none }]
    port_types := [{ type_name := "audio", type_id := 0, mixdown := false, buffer_freelist := [] }]
    clients := [{ mkClient 0 ClientInternal with ports := [0] }, { mkClient 1 ClientInternal with ports := [1] }]
    events := []
    wait_fd_writes := [] }

/-- Engine for the rechain scenario: two active *external* clients with
recognisable `subgraph_wait_fd` sentinels and no connections. -/
def engineTwoExternal : jack_engine_t :=
  { control_ports := []
    internal_ports := []
    port_types := []
    clients := [{ mkClient 1 ClientExternal with subgraph_wait_fd := 5 }
              , { mkClient 2 ClientExternal with subgraph_wait_fd := 7 }]
    events := []
    wait_fd_writes := [] }

/-- Engine for the connect/disconnect scenarios: two active external clients,
client 0 owning output port "a" (port 0), client 1 owning input port "b"
(port 1), no connections; the source port's `monitor_requests` is a
parameter. -/
def engineConnect (mon : Nat) : jack_engine_t :=
  { control_ports := [{ mkPort "a" 0 outFlags with monitor_requests := mon }, mkPort "b" 1 inFlags]
    internal_ports := [default, default]
    port_types := [{ type_name := "audio", type_id := 0, mixdown := false, buffer_freelist := [] }]
    clients := [{ mkClient 0 ClientExternal with ports := [0] }, { mkClient 1 ClientExternal with ports := [1] }]
    events := []
    wait_fd_writes := [] }

/-- A run-cycle state in real-time mode with a 50 µs spare estimate and the
static delay counter at zero. -/
def rcState0 : run_cycle_state :=
  { real_time := true, spare_usecs := 50, consecutive_excessive_delays := 0, frame_time := 0 }

/-- A driver whose operations all succeed. -/
def driverOk : jack_driver_t :=
  { stop_ok := true, start_ok := true, read_ok := true, write_ok := true }

/-- The unregister request used to probe the range check, parameterized by
the port id. -/
def reqUnregister (pid : Nat) : jack_port_info_req :=
  { client_id := 0, name := "", ptype := "", flags := outFlags, port_id := pid }

/-- A `jack_process_external` environment describing a clean timeout: the
start byte was written, the poll returned without `POLLIN`, and the client
had stamped `awake_at = 42` in shared memory before the wait expired. -/
def extTimeoutInput : process_ext_input :=
  { now := 10, write_ok := true, asio_mode := false, driver_wait_status := 0
    poll_failed := false, revents_pollin := false, revents_other := false
    awake_at_shared := 42, finished_at_shared := 0, read_ok := true }

/-- A quiescent external-client control block. -/
def extCtl0 : client_ext_control :=
  { state := jack_client_state.NotTriggered, signalled_at := 0, awake_at := 0
    finished_at := 0, timed_out := 0, error := 0 }

/-- The engine after a successful `connect("a", "b")` on `engineConnect 0`. -/
def engineConnectMid : jack_engine_t :=
  ((jack_port_do_connect fifoId 20 (engineConnect 0) "a" "b").getD (0, engineConnect 0)).2

/-- `engineConnectMid` after the matching `disconnect("a", "b")`. -/
def engineConnectDone : jack_engine_t :=
  ((jack_port_do_disconnect fifoId 20 engineConnectMid "a" "b").getD (0, engineConnect 0)).2

/-- The persistent port-graph state of an engine: its shared port table and
its private port table (connection lists and held buffers). -/
def port_state (e : jack_engine_t) : List jack_port_shared_t × List jack_port_internal_t :=
  (e.control_ports, e.internal_ports)

/-- Claim C1: registering a port on a type whose buffer free-list is empty
(the port carries the output flag) makes `jack_port_do_register` return `-1`
and emit no `PortRegistered` event — but the port table is *not* left
unchanged: the slot claimed by `jack_get_free_port` keeps its `in_use` bit
(the failure path never calls `jack_port_release`), so the slot leaks.
Evaluated on a one-slot engine whose only type has an empty free-list. -/
theorem C1_register_empty_freelist_leaks_slot :
    (jack_port_do_register engineEmptyFreelist reqEmptyFreelist).1 = -1 ∧
    (sharedAt (jack_port_do_register engineEmptyFreelist reqEmptyFreelist).2 0).in_use = true ∧
    (jack_port_do_register engineEmptyFreelist reqEmptyFreelist).2.events = [] := by
  decide

/-- Claim C2: `jack_port_do_unregister`'s range check is
`port_id > port_max`, not `port_id >= port_max`, so the request with
`port_id = port_max` (here 1) is *not* rejected: it reads
`ports[port_max]`, one past the end of the table (modelled as `none`,
undefined behaviour), while `port_id = port_max + 1` is rejected with `-1`
and no state change. -/
theorem C2_unregister_range_check_off_by_one :
    jack_port_do_unregister engineUnregister (reqUnregister 1) = none ∧
    jack_port_do_unregister engineUnregister (reqUnregister 2) = some (-1, engineUnregister) := by
  decide

/-- Claim C4: `jack_get_port_total_latency` terminates on every engine state
(the embedding is total by construction, cyclic connection graphs included)
because the recursion is bounded by the hop count: as soon as
`hop_count > 8` the function returns the port's own latency without touching
the port's connections. -/
theorem C4_total_latency_hop_cap (e : jack_engine_t) (pid : Nat) (toward_port : Bool) (hop_count : Nat)
    (h : 8 < hop_count) :
    jack_get_port_total_latency e pid hop_count toward_port = (sharedAt e pid).latency := by
  unfold jack_get_port_total_latency
  have h9 : 9 - hop_count = 0 := Nat.sub_eq_zero_of_le h
  rw [h9]
  rfl

/-- Witness for C4 at a concrete engine and hop count 9. -/
theorem C4_total_latency_hop_cap_witness :
    8 < 9 ∧ jack_get_port_total_latency engineTwoInternal 0 9 true = (sharedAt engineTwoInternal 0).latency :=
  ⟨by decide, C4_total_latency_hop_cap engineTwoInternal 0 true 9 (by decide)⟩

/-- Claim C10: a disconnect-all request with `port_id >= port_max` returns
`-1` and leaves the engine untouched — the check precedes every state access,
so no connection list, port descriptor or client record changes and no sort
runs. -/
theorem C10_disconnect_all_out_of_range (fifo_fd : Nat → Int) (fuel : Nat) (e : jack_engine_t) (port_id : Nat)
    (h : port_id ≥ port_max e) :
    jack_port_do_disconnect_all fifo_fd fuel e port_id = some (-1, e) := by
  unfold jack_port_do_disconnect_all
  rw [if_pos h]

/-- Witness for C10 on a one-port engine and `port_id = 5`. -/
theorem C10_disconnect_all_out_of_range_witness :
    5 ≥ port_max engineUnregister ∧
    jack_port_do_disconnect_all fifoId 20 engineUnregister 5 = some (-1, engineUnregister) :=
  ⟨by decide, C10_disconnect_all_out_of_range fifoId 20 engineUnregister 5 (by decide)⟩

/-- Claim C8: in `jack_process_external`, whenever the start byte was
written and the wait ends with a nonzero status, the engine's
`process_errors` is incremented and the dispatch loop stops (the function
returns the stop flag); the client's `timed_out` is incremented exactly when
the observed `awake_at` is positive, i.e. the client actually woke. -/
theorem C8_process_external_timeout (process_errors : Nat) (ctl : client_ext_control) (inp : process_ext_input)
    (hw : inp.write_ok = true) (hs : jack_process_external_status inp ≠ 0) :
    (jack_process_external process_errors ctl inp).1 = process_errors + 1 ∧
    (jack_process_external process_errors ctl inp).2.2 = true ∧
    (jack_process_external process_errors ctl inp).2.1.timed_out =
      ctl.timed_out + (if 0 < inp.awake_at_shared then 1 else 0) := by
  simp only [jack_process_external, hw, Bool.not_true]
  rw [if_neg (not_not_intro trivial), if_pos hs]
  refine ⟨rfl, rfl, ?_⟩
  by_cases ha : (0:Nat) < inp.awake_at_shared
  · rw [if_pos (show inp.awake_at_shared > 0 from ha), if_pos ha]
  · rw [if_neg (show ¬ inp.awake_at_shared > 0 from ha), if_neg ha]
    rfl

/-- Witness for C8: a timed-out wait (`POLLIN` absent) with `awake_at = 42`
stamped by the client. -/
theorem C8_process_external_timeout_witness :
    (jack_process_external 0 extCtl0 extTimeoutInput).1 = 0 + 1 ∧
    (jack_process_external 0 extCtl0 extTimeoutInput).2.2 = true ∧
    (jack_process_external 0 extCtl0 extTimeoutInput).2.1.timed_out =
      extCtl0.timed_out + (if 0 < extTimeoutInput.awake_at_shared then 1 else 0) :=
  C8_process_external_timeout 0 extCtl0 extTimeoutInput (by decide) (by decide)

/-- Counterexample to claim C5 as stated.  Ten consecutive excessive delays
do *not* abort `jack_run_cycle`: starting from a zero counter, each of ten
consecutive excessive-delay cycles (real-time, `spare = 50 <= delayed = 100`,
driver operations succeeding) returns 0; the abort happens only on the
eleventh (`++counter > 10`).  Moreover, a delay that strictly exceeds a
`spare_usecs` of 0 is not counted as excessive at all: the cycle takes the
normal path and resets the counter. -/
theorem C5_counterexample_ten_delays_return_zero :
    (jack_run_cycle_iter driverOk true false 64 100 10 rcState0).1 =
      [0, 0, 0, 0, 0, 0, 0, 0, 0, 0] ∧
    (jack_run_cycle_iter driverOk true false 64 100 11 rcState0).1 =
      [0, 0, 0, 0, 0, 0, 0, 0, 0, 0, -1] ∧
    (jack_run_cycle { rcState0 with spare_usecs := 0 } driverOk false false 64 1000).1 = 0 ∧
    (jack_run_cycle { rcState0 with spare_usecs := 0 } driverOk false false 64 1000).2.1.consecutive_excessive_delays = 0 ∧
    (jack_run_cycle { rcState0 with spare_usecs := 0 } driverOk false false 64 1000).2.2 = [cycle_action.NullCycle] := by
  decide

/-- Claim C5, amended: when `real_time` is set, `spare_usecs` is nonzero and
`delayed_usecs` is at least `spare_usecs` (the comparison is `<=`, not a
strict "exceeds", and a zero spare estimate never triggers), the cycle counts
as an excessive delay: while at most ten such delays have accumulated
consecutively, the driver is stopped, `XRun` is delivered to all clients, the
driver is restarted and the call returns 0 (assuming stop and restart
succeed); it is the *eleventh* consecutive excessive delay, not the tenth,
that makes `jack_run_cycle` return `-1`. -/
theorem C5_amended_eleventh_delay_aborts (st : run_cycle_state) (driver : jack_driver_t)
    (try_lock_ok process_failed : Bool) (nframes : Nat) (delayed_usecs : Int)
    (hrt : st.real_time = true) (hsp : st.spare_usecs ≠ 0) (hle : st.spare_usecs ≤ delayed_usecs)
    (hstop : driver.stop_ok = true) (hstart : driver.start_ok = true) :
    (st.consecutive_excessive_delays < 10 →
      jack_run_cycle st driver try_lock_ok process_failed nframes delayed_usecs =
        (0, { st with consecutive_excessive_delays := st.consecutive_excessive_delays + 1 },
         [cycle_action.DriverStop, cycle_action.XRunToAllClients, cycle_action.DriverStart])) ∧
    (10 ≤ st.consecutive_excessive_delays →
      (jack_run_cycle st driver try_lock_ok process_failed nframes delayed_usecs).1 = -1) := by
  simp only [jack_run_cycle, if_pos (show st.real_time = true ∧ st.spare_usecs ≠ 0 ∧
    st.spare_usecs ≤ delayed_usecs from ⟨hrt, hsp, hle⟩)]
  constructor
  · intro h
    rw [if_neg (show ¬ st.consecutive_excessive_delays + 1 > 10 from Nat.not_lt.mpr (Nat.succ_le_of_lt h))]
    rw [if_neg (not_not_intro hstop), if_neg (not_not_intro hstart)]
  · intro h
    rw [if_pos (show st.consecutive_excessive_delays + 1 > 10 from Nat.lt_succ_of_le h)]

/-- Witness for C5 (amended): at the concrete real-time state with spare 50
and delay 100, the first excessive delay returns 0 and, with the counter
already at 10, the next one returns `-1`. -/
theorem C5_amended_eleventh_delay_aborts_witness :
    (jack_run_cycle rcState0 driverOk true false 64 100 =
      (0, { rcState0 with consecutive_excessive_delays := 1 },
       [cycle_action.DriverStop, cycle_action.XRunToAllClients, cycle_action.DriverStart])) ∧
    ((jack_run_cycle { rcState0 with consecutive_excessive_delays := 10 } driverOk true false 64 100).1 = -1) := by
  constructor
  · exact (C5_amended_eleventh_delay_aborts rcState0 driverOk true false 64 100
      (by decide) (by decide) (by decide) (by decide) (by decide)).1 (by decide)
  · exact (C5_amended_eleventh_delay_aborts { rcState0 with consecutive_excessive_delays := 10 }
      driverOk true false 64 100 (by decide) (by decide) (by decide) (by decide) (by decide)).2 (by decide)

/-- Counterexample to claim C6 as stated.  On the engine with two active
*internal* clients where client 0 feeds client 1 (so after
`jack_sort_graph`, `0 ∈ fed_by(1)`, `1 ∉ fed_by(0)`, and client 0 is not the
driver — the exception does not apply), both clients end up with
`execution_order = 0`: `jack_rechain_graph` advances its counter only for
external clients and subgraph closings, so the strict inequality
`a.execution_order < b.execution_order` fails. -/
theorem C6_counterexample_equal_execution_orders :
    (jack_sort_graph fifoId 20 engineTwoInternal).map (fun e =>
      (e.clients.map (fun c => (c.id, c.execution_order)),
       e.clients.map (fun c => (c.id, c.fed_by)),
       e.clients.map (fun c => (c.id, c.ctype == ClientDriver)))) =
    some ([(0, 0), (1, 0)], [(0, []), (1, [0])], [(0, false), (1, false)]) := by
  decide

/-- Claim C6, amended: the strict execution-order inequality does not hold of
the state `jack_sort_graph` leaves behind (Internal/Driver clients can share
`execution_order` values, and pairs never compared by the sort carry no
guarantee); what does hold is the comparator-level ordering: whenever
`a ∈ fed_by(b)` and `b ∉ fed_by(a)`, `jack_client_sort` orders `a` strictly
before `b` (it returns `-1` on `(a, b)` and `1` on `(b, a)`). -/
theorem C6_amended_comparator_orders_feeder_first (a b : jack_client_internal_t)
    (h1 : a.id ∈ b.fed_by) (h2 : b.id ∉ a.fed_by) :
    jack_client_sort a b = -1 ∧ jack_client_sort b a = 1 := by
  unfold jack_client_sort
  constructor
  · rw [if_neg h2, if_pos h1, if_neg (show ¬ (b.id ∈ a.fed_by ∧ b.ctype = ClientDriver) from
      fun hx => h2 hx.1)]
  · rw [if_pos h1, if_neg (show ¬ (b.id ∈ a.fed_by ∧ b.ctype = ClientDriver) from
      fun hx => h2 hx.1)]

/-- Witness for C6 (amended) on two concrete internal clients with
`fed_by(1) = [0]`. -/
theorem C6_amended_comparator_orders_feeder_first_witness :
    jack_client_sort (mkClient 0 ClientInternal) { mkClient 1 ClientInternal with fed_by := [0] } = -1 ∧
    jack_client_sort { mkClient 1 ClientInternal with fed_by := [0] } (mkClient 0 ClientInternal) = 1 :=
  C6_amended_comparator_orders_feeder_first (mkClient 0 ClientInternal)
    { mkClient 1 ClientInternal with fed_by := [0] } (by decide) (by decide)

/-- On the four-client graph `traceState0` every call in the recursion cycle
of `jack_trace_terminal (·, client 0)` runs out of fuel, whatever the fuel:
the walk ramps through `traceState1` to the fixed state `traceStateFix`, and
from there the calls on clients 3 → 1 → 2 → 3 repeat with an unchanged
state (each one-element `fed_by` snapshot recurses because the guard
`c1 ∈ c2.fed_by` never fires on the cycle).  Each successor case is
definitionally the next call of the cycle at one unit less fuel. -/
theorem trace_cycle_all_none (fuel : Nat) :
    jack_trace_terminal traceState0 0 0 fuel = none ∧
    jack_trace_terminal traceState0 1 0 fuel = none ∧
    jack_trace_terminal traceState1 2 0 fuel = none ∧
    jack_trace_terminal traceStateFix 3 0 fuel = none ∧
    jack_trace_terminal traceStateFix 1 0 fuel = none ∧
    jack_trace_terminal traceStateFix 2 0 fuel = none := by
  induction fuel with
  | zero => exact ⟨rfl, rfl, rfl, rfl, rfl, rfl⟩
  | succ f ih =>
    obtain ⟨ih0, ih1, ih2, ih3, ih1f, ih2f⟩ := ih
    exact ⟨ih1, ih2, ih3, ih1f, ih2f, ih3⟩

/-- Claim C3: contrary to the claim, `jack_trace_terminal` does *not*
terminate on every client graph.  On `traceState0` — the direct-feeds state
`jack_sort_graph` produces for connections `2 → 1`, `3 → 2`, `1 → 3`
(a cycle) and `1 → 0`, with client 0 first in the list — the call
`jack_trace_terminal (client 0, client 0)` recurses forever: the membership
check `c1 ∈ c2.fed_by` guards only against immediate back-edges and never
fires on the three-cycle, exactly the hazard the source's FIXME comment
records ("we may end up recursing infinitely"). -/
theorem C3_trace_terminal_daemon_cycle_diverges :
    jack_trace_terminal_diverges traceState0 0 0 :=
  fun fuel => (trace_cycle_all_none fuel).1

/-- The effect of one rechain step on the `(id, subgraph_wait_fd)` view of the
client list: updating `execution_order`/`next_client` of client `cid` touches
no wait fd, and the `-1` store lands on client `s` only. -/
theorem clients_wait_fd_after_step (l : List jack_client_internal_t) (cid s : Nat) (n : Nat) (nc : Option Nat) :
    ((l.map (fun c => if c.id == cid then { c with execution_order := n, next_client := nc } else c)).map
      (fun c => if c.id == s then { c with subgraph_wait_fd := (-1 : Int) } else c)).map
      (fun d => (d.id, d.subgraph_wait_fd)) =
    l.map (fun d => (d.id, if d.id == s then (-1 : Int) else d.subgraph_wait_fd)) := by
  induction l with
  | nil => rfl
  | cons hd tl ih =>
    simp only [List.map_cons, ih, List.cons.injEq, and_true]
    by_cases h1 : hd.id == cid
    · by_cases h2 : hd.id == s
      · simp [h1, h2]
      · simp [h1, h2]
    · by_cases h2 : hd.id == s
      · simp [h1, h2]
      · simp [h1, h2]

/-- Counterexample to claim C7 as stated.  On `engineTwoExternal` (externals
1 then 2, both active, wait-fd sentinels 5 and 7), `jack_rechain_graph`
performs exactly the wait-fd writes `(1, -1)` then `(1, 2)`: the `-1` is
stored into the *subgraph-starting* client 1 (`subgraph_client->...`), never
into client 2's own field, which keeps its sentinel 7. -/
theorem C7_counterexample_starter_cleared_not_self :
    (jack_rechain_graph fifoId engineTwoExternal).wait_fd_writes = [(1, -1), (1, 2)] ∧
    (jack_rechain_graph fifoId engineTwoExternal).clients.map (fun c => (c.id, c.subgraph_wait_fd)) =
      [(1, 2), (2, 7)] := by
  decide

/-- Claim C7, amended: when `jack_rechain_graph` encounters an active
External client `cid` while a subgraph opened by client `s` is in progress,
the step sets the *subgraph starter's* `subgraph_wait_fd` to `-1` — written
`subgraph_client->subgraph_wait_fd = -1` in the source — not the encountered
client's own field (the `-1` is transient: the starter's wait fd is
overwritten when the subgraph closes).  The `(id, wait_fd)` view of the
client list shows `-1` exactly at client `s`, every other client's
`subgraph_wait_fd` (in particular `cid`'s) being untouched, and the write
log records exactly `(s, -1)`. -/
theorem C7_amended_wait_fd_goes_to_starter (fifo_fd : Nat → Int) (e : jack_engine_t) (n : Nat) (s cid : Nat)
    (rest : List Nat) (event_x : Nat) (c : jack_client_internal_t)
    (hfind : jack_client_internal_by_id e cid = some c)
    (hact : c.active = true)
    (hext : jack_client_is_internal c = false) :
    jack_rechain_loop fifo_fd (cid :: rest) e n (some s) event_x =
      jack_rechain_loop fifo_fd rest
        (jack_deliver_event
          (set_subgraph_wait_fd
            (updClient e cid (fun c0 => { c0 with execution_order := n, next_client := rechain_next_active e rest }))
            s (-1))
          cid { kind := GraphReordered, x := n, y := 0 })
        (n + 1) (some s) n ∧
    (set_subgraph_wait_fd
        (updClient e cid (fun c0 => { c0 with execution_order := n, next_client := rechain_next_active e rest }))
        s (-1)).clients.map (fun d => (d.id, d.subgraph_wait_fd)) =
      e.clients.map (fun d => (d.id, if d.id == s then (-1 : Int) else d.subgraph_wait_fd)) ∧
    (set_subgraph_wait_fd
        (updClient e cid (fun c0 => { c0 with execution_order := n, next_client := rechain_next_active e rest }))
        s (-1)).wait_fd_writes = e.wait_fd_writes ++ [(s, -1)] := by
  refine ⟨?_, ?_, ?_⟩
  · simp only [jack_rechain_loop, hfind, hact, Bool.not_true, hext]
    rw [if_neg (not_not_intro trivial)]
    simp only [Bool.false_eq_true, if_false]
  · simp only [set_subgraph_wait_fd, updClient]
    exact clients_wait_fd_after_step e.clients cid s n (rechain_next_active e rest)
  · rfl

/-- Witness for C7 (amended): client 2 of `engineTwoExternal` encountered at
`n = 1` inside the subgraph started by client 1. -/
theorem C7_amended_wait_fd_goes_to_starter_witness :
    jack_rechain_loop fifoId [2] engineTwoExternal 1 (some 1) 0 =
      jack_rechain_loop fifoId []
        (jack_deliver_event
          (set_subgraph_wait_fd
            (updClient engineTwoExternal 2
              (fun c0 => { c0 with execution_order := 1, next_client := rechain_next_active engineTwoExternal [] }))
            1 (-1))
          2 { kind := GraphReordered, x := 1, y := 0 })
        2 (some 1) 1 ∧
    (set_subgraph_wait_fd
        (updClient engineTwoExternal 2
          (fun c0 => { c0 with execution_order := 1, next_client := rechain_next_active engineTwoExternal [] }))
        1 (-1)).wait_fd_writes = engineTwoExternal.wait_fd_writes ++ [(1, -1)] := by
  have h := C7_amended_wait_fd_goes_to_starter fifoId engineTwoExternal 1 1 2 [] 0
    { mkClient 2 ClientExternal with subgraph_wait_fd := 7 } (by decide) (by decide) (by decide)
  exact ⟨h.1, h.2.2⟩

theorem deliver_event_port_state (e : jack_engine_t) (cid : Nat) (ev : jack_event_t) :
    port_state (jack_deliver_event e cid ev) = port_state e := by
  unfold jack_deliver_event
  split
  · rfl
  · split <;> rfl

theorem send_notification_port_state (e : jack_engine_t) (cid self other : Nat) (conn : Bool) :
    port_state (jack_send_connection_notification e cid self other conn) = port_state e := by
  unfold jack_send_connection_notification
  split
  · rfl
  · split
    · exact deliver_event_port_state _ _ _
    · rfl

theorem rechain_loop_port_state (fifo_fd : Nat → Int) (ids : List Nat) :
    ∀ (e : jack_engine_t) (n : Nat) (sg : Option Nat) (ex : Nat),
      port_state (jack_rechain_loop fifo_fd ids e n sg ex).1 = port_state e := by
  induction ids with
  | nil => intro e n sg ex; rfl
  | cons cid rest ih =>
    intro e n sg ex
    simp only [jack_rechain_loop]
    split
    · exact ih e n sg ex
    · split
      · exact ih e n sg ex
      · split
        · split
          · rw [ih]
            rw [deliver_event_port_state]
            rfl
          · rw [ih]
            rw [deliver_event_port_state]
            rfl
        · split
          · rw [ih]
            rw [deliver_event_port_state]
            rfl
          · rw [ih]
            rw [deliver_event_port_state]
            rfl

theorem rechain_graph_port_state (fifo_fd : Nat → Int) (e : jack_engine_t) :
    port_state (jack_rechain_graph fifo_fd e) = port_state e := by
  unfold jack_rechain_graph
  split
  case _ e1 n s heq =>
    have h := rechain_loop_port_state fifo_fd (e.clients.map (fun c => c.id)) e 0 none 0
    rw [heq] at h
    calc port_state (set_subgraph_wait_fd e1 s (fifo_fd n)) = port_state e1 := rfl
      _ = port_state e := h
  case _ e1 n heq =>
    have h := rechain_loop_port_state fifo_fd (e.clients.map (fun c => c.id)) e 0 none 0
    rw [heq] at h
    exact h

theorem sort_graph_port_state (fifo_fd : Nat → Int) (fuel : Nat) (e e' : jack_engine_t)
    (h : jack_sort_graph fifo_fd fuel e = some e') :
    port_state e' = (compute_latency_ports e.control_ports e.internal_ports, e.internal_ports) := by
  simp only [jack_sort_graph] at h
  split at h
  · exact absurd h (by simp)
  · have h2 := Option.some.inj h
    rw [← h2, rechain_graph_port_state]
    rfl

theorem compute_latency_go_getElem? (cp : List jack_port_shared_t) (ip : List jack_port_internal_t) :
    ∀ (l : List jack_port_shared_t) (k i : Nat),
      (compute_latency_go cp ip k l)[i]? = (l[i]?).map (fun p => compute_latency_port cp ip (k + i) p) := by
  intro l
  induction l with
  | nil => intro k i; rfl
  | cons hd tl ih =>
    intro k i
    cases i with
    | zero => simp [compute_latency_go]
    | succ j =>
      simp only [compute_latency_go, List.getElem?_cons_succ, ih (k + 1) j]
      rw [Nat.add_assoc, Nat.add_comm 1 j]

theorem compute_latency_ports_getElem? (cp : List jack_port_shared_t) (ip : List jack_port_internal_t) (i : Nat) :
    (compute_latency_ports cp ip)[i]? = (cp[i]?).map (fun p => compute_latency_port cp ip i p) := by
  have h := compute_latency_go_getElem? cp ip cp 0 i
  rw [Nat.zero_add] at h
  exact h

theorem compute_latency_port_latency_flags (cp : List jack_port_shared_t) (ip : List jack_port_internal_t) (i : Nat) (p : jack_port_shared_t) :
    (compute_latency_port cp ip i p).latency = p.latency ∧
    (compute_latency_port cp ip i p).flags = p.flags ∧
    (compute_latency_port cp ip i p).in_use = p.in_use ∧
    (compute_latency_port cp ip i p).name = p.name ∧
    (compute_latency_port cp ip i p).monitor_requests = p.monitor_requests := by
  unfold compute_latency_port
  split <;> exact ⟨rfl, rfl, rfl, rfl, rfl⟩

theorem map_key_compute_latency (cp : List jack_port_shared_t) (ip : List jack_port_internal_t)
    (key : jack_port_shared_t → Nat × jack_port_flags × Bool × String)
    (hkey : ∀ q, key q = (q.latency, q.flags, q.in_use, q.name)) :
    (compute_latency_ports cp ip).map key = cp.map key := by
  apply List.ext_getElem?
  intro i
  rw [List.getElem?_map, List.getElem?_map, compute_latency_ports_getElem?]
  cases cp[i]? with
  | none => rfl
  | some p =>
    show some (key (compute_latency_port cp ip i p)) = some (key p)
    obtain ⟨h1, h2, h3, h4, h5⟩ := compute_latency_port_latency_flags cp ip i p
    rw [hkey, hkey, h1, h2, h3, h4]

theorem getD_latency_flags_of_map_key (cp cp' : List jack_port_shared_t)
    (h : cp.map (fun q => (q.latency, q.flags, q.in_use, q.name)) =
         cp'.map (fun q => (q.latency, q.flags, q.in_use, q.name))) (i : Nat) :
    (cp.getD i default).latency = (cp'.getD i default).latency ∧
    (cp.getD i default).flags = (cp'.getD i default).flags := by
  have hi := congrArg (fun l => l[i]?) h
  simp only [List.getElem?_map] at hi
  rw [List.getD_eq_getElem?_getD, List.getD_eq_getElem?_getD]
  cases h1 : cp[i]? with
  | none =>
    cases h2 : cp'[i]? with
    | none => exact ⟨rfl, rfl⟩
    | some q => rw [h1, h2] at hi; exact absurd hi (by simp)
  | some p =>
    cases h2 : cp'[i]? with
    | none => rw [h1, h2] at hi; exact absurd hi (by simp)
    | some q =>
      rw [h1, h2] at hi
      simp only [Option.map_some', Option.some.injEq, Prod.mk.injEq] at hi
      exact ⟨hi.1, hi.2.1⟩

theorem total_latency_go_congr (cp cp' : List jack_port_shared_t) (ip : List jack_port_internal_t)
    (h : cp.map (fun q => (q.latency, q.flags, q.in_use, q.name)) =
         cp'.map (fun q => (q.latency, q.flags, q.in_use, q.name)))
    (toward : Bool) :
    ∀ (gas : Nat) (pid : Nat),
      total_latency_go cp ip pid toward gas = total_latency_go cp' ip pid toward gas := by
  have e1 : ∀ j, (cp.getD j default).latency = (cp'.getD j default).latency :=
    fun j => (getD_latency_flags_of_map_key cp cp' h j).1
  have e2 : ∀ j, (cp.getD j default).flags = (cp'.getD j default).flags :=
    fun j => (getD_latency_flags_of_map_key cp cp' h j).2
  intro gas
  induction gas with
  | zero => intro pid; simp only [total_latency_go]; exact e1 pid
  | succ g ihg =>
    intro pid
    simp only [total_latency_go]
    rw [e1 pid]
    congr 1
    congr 1
    funext m c
    simp only [e1, e2, ihg]

theorem map_key_set_monitor_zero (cp : List jack_port_shared_t) (i : Nat)
    (key : jack_port_shared_t → Nat × jack_port_flags × Bool × String)
    (hkey : ∀ q, key q = (q.latency, q.flags, q.in_use, q.name)) :
    (cp.set i { cp.getD i default with monitor_requests := 0 }).map key = cp.map key := by
  apply List.ext_getElem?
  intro j
  rw [List.getElem?_map, List.getElem?_map]
  by_cases hij : i = j
  · subst hij
    rw [List.getElem?_set]
    by_cases hlen : i < cp.length
    · rw [if_pos rfl, if_pos hlen, List.getD_eq_getElem?_getD]
      cases hcp : cp[i]? with
      | none => exact absurd hcp (by simp [hlen])
      | some p =>
        show some (key { p with monitor_requests := 0 }) = some (key p)
        rw [hkey, hkey]
    · rw [if_pos rfl, if_neg hlen]
      have hnone : cp[i]? = none := by
        rw [List.getElem?_eq_none_iff]
        exact Nat.le_of_not_lt hlen
      rw [hnone]
  · rw [List.getElem?_set_ne hij]

theorem findIdx?_key_congr {α β : Type} (f : α → β) (q : β → Bool) :
    ∀ (l l' : List α) (i : Nat), l.map f = l'.map f →
      List.findIdx? (fun x => q (f x)) l i = List.findIdx? (fun x => q (f x)) l' i := by
  intro l
  induction l with
  | nil =>
    intro l' i h
    cases l' with
    | nil => rfl
    | cons a as => exact absurd h (by simp)
  | cons a as ih =>
    intro l' i h
    cases l' with
    | nil => exact absurd h (by simp)
    | cons b bs =>
      simp only [List.map_cons, List.cons.injEq] at h
      rw [List.findIdx?_cons, List.findIdx?_cons, h.1, ih bs (i + 1) h.2]

theorem byname_of_map_key (e e' : jack_engine_t) (name : String)
    (h : e.control_ports.map (fun q => (q.latency, q.flags, q.in_use, q.name)) =
         e'.control_ports.map (fun q => (q.latency, q.flags, q.in_use, q.name))) :
    jack_get_port_by_name e name = jack_get_port_by_name e' name := by
  unfold jack_get_port_by_name
  exact findIdx?_key_congr (fun q => (q.latency, q.flags, q.in_use, q.name))
    (fun t => t.2.2.1 && t.2.2.2 == name) e.control_ports e'.control_ports 0 h

theorem jack_slist_remove_cons_self {α : Type} [DecidableEq α] (x : α) (l : List α) :
    jack_slist_remove (x :: l) x = l := by
  unfold jack_slist_remove
  rw [if_pos rfl]

theorem setConns_internal_getElem? (e : jack_engine_t) (j i : Nat) (L : List jack_connection_internal_t) :
    (setConns e j L).internal_ports[i]? =
      if j = i then
        (if j < e.internal_ports.length then
          some { e.internal_ports.getD j default with connections := L }
        else none)
      else e.internal_ports[i]? := by
  unfold setConns
  exact List.getElem?_set

theorem setConns_control (e : jack_engine_t) (j : Nat) (L : List jack_connection_internal_t) :
    (setConns e j L).control_ports = e.control_ports :=
  rfl

theorem connsAt_setConns_ne (e : jack_engine_t) (j i : Nat) (L : List jack_connection_internal_t)
    (h : j ≠ i) : connsAt (setConns e j L) i = connsAt e i := by
  unfold connsAt
  rw [List.getD_eq_getElem?_getD, List.getD_eq_getElem?_getD, setConns_internal_getElem?, if_neg h]

theorem connsAt_setConns_self (e : jack_engine_t) (j : Nat) (L : List jack_connection_internal_t)
    (h : j < e.internal_ports.length) : connsAt (setConns e j L) j = L := by
  unfold connsAt
  rw [List.getD_eq_getElem?_getD, setConns_internal_getElem?, if_pos rfl, if_pos h]
  rfl

theorem compute_latency_go_length (cp : List jack_port_shared_t) (ip : List jack_port_internal_t) :
    ∀ (l : List jack_port_shared_t) (k : Nat), (compute_latency_go cp ip k l).length = l.length := by
  intro l
  induction l with
  | nil => intro k; rfl
  | cons hd tl ih =>
    intro k
    simp only [compute_latency_go, List.length_cons, ih (k + 1)]

theorem compute_latency_ports_length (cp : List jack_port_shared_t) (ip : List jack_port_internal_t) :
    (compute_latency_ports cp ip).length = cp.length :=
  compute_latency_go_length cp ip cp 0

theorem compute_latency_ports_getD_monitor (cp : List jack_port_shared_t) (ip : List jack_port_internal_t) (i : Nat) :
    ((compute_latency_ports cp ip).getD i default).monitor_requests =
      (cp.getD i default).monitor_requests := by
  rw [List.getD_eq_getElem?_getD, List.getD_eq_getElem?_getD, compute_latency_ports_getElem?]
  cases cp[i]? with
  | none => rfl
  | some p =>
    show (compute_latency_port cp ip i p).monitor_requests = p.monitor_requests
    exact (compute_latency_port_latency_flags cp ip i p).2.2.2.2

theorem getD_set_self {α : Type} [Inhabited α] (l : List α) (i : Nat) (a : α) (h : i < l.length) :
    (l.set i a).getD i default = a := by
  rw [List.getD_eq_getElem?_getD, List.getElem?_set_self h]
  rfl

theorem getD_set_ne {α : Type} [Inhabited α] (l : List α) (i j : Nat) (a : α) (h : i ≠ j) :
    (l.set i a).getD j default = l.getD j default := by
  rw [List.getD_eq_getElem?_getD, List.getElem?_set_ne h, ← List.getD_eq_getElem?_getD]

theorem connsAt_congr (e1 e2 : jack_engine_t) (i : Nat)
    (h : e1.internal_ports = e2.internal_ports) : connsAt e1 i = connsAt e2 i := by
  unfold connsAt
  rw [h]

theorem send_notification_control (e : jack_engine_t) (cid self other : Nat) (conn : Bool) :
    (jack_send_connection_notification e cid self other conn).control_ports = e.control_ports :=
  congrArg Prod.fst (send_notification_port_state e cid self other conn)

theorem send_notification_internal (e : jack_engine_t) (cid self other : Nat) (conn : Bool) :
    (jack_send_connection_notification e cid self other conn).internal_ports = e.internal_ports :=
  congrArg Prod.snd (send_notification_port_state e cid self other conn)

theorem disconnect_core_port_state (s1 : jack_engine_t) (ai bi : Nat)
    (old_src old_dst : List jack_connection_internal_t)
    (hne : ai ≠ bi)
    (hai_len : ai < s1.internal_ports.length)
    (hc_ai : connsAt s1 ai = { source := ai, destination := bi } :: old_src)
    (hc_bi : connsAt s1 bi = { source := ai, destination := bi } :: old_dst) :
    (jack_port_disconnect_core s1 ai bi).1 = 0 ∧
    (jack_port_disconnect_core s1 ai bi).2.control_ports =
      (if old_src = [] then
        s1.control_ports.set ai { s1.control_ports.getD ai default with monitor_requests := 0 }
      else s1.control_ports) ∧
    (jack_port_disconnect_core s1 ai bi).2.internal_ports =
      (s1.internal_ports.set ai
        { s1.internal_ports.getD ai default with connections := old_src }).set bi
        { s1.internal_ports.getD bi default with connections := old_dst } := by
  have hfind : (connsAt s1 ai).find?
      (fun cc => cc.source == ai && cc.destination == bi) = some { source := ai, destination := bi } := by
    rw [hc_ai]
    apply List.find?_cons_of_pos
    simp
  have hrm_src : jack_slist_remove (connsAt s1 ai) { source := ai, destination := bi } = old_src := by
    rw [hc_ai]; exact jack_slist_remove_cons_self _ _
  have hmid : jack_slist_remove (connsAt (setConns s1 ai old_src) bi) { source := ai, destination := bi } = old_dst := by
    rw [connsAt_setConns_ne s1 ai bi old_src hne, hc_bi]
    exact jack_slist_remove_cons_self _ _
  have hafter_ai : connsAt (setConns (setConns s1 ai old_src) bi old_dst) ai = old_src := by
    rw [connsAt_setConns_ne _ bi ai old_dst (Ne.symm hne)]
    exact connsAt_setConns_self s1 ai old_src hai_len
  unfold jack_port_disconnect_core
  simp only [hfind, hrm_src, hmid, hafter_ai]
  refine ⟨trivial, ?_, ?_⟩
  · rw [send_notification_control, send_notification_control]
    by_cases hE : old_src = []
    · rw [if_pos hE, if_pos hE]
      rfl
    · rw [if_neg hE, if_neg hE]
      rfl
  · rw [send_notification_internal, send_notification_internal]
    by_cases hE : old_src = []
    · rw [if_pos hE]
      show ((s1.internal_ports.set ai _).set bi
        { (s1.internal_ports.set ai { s1.internal_ports.getD ai default with connections := old_src }).getD bi default with
          connections := old_dst }) = _
      rw [getD_set_ne _ ai bi _ hne]
    · rw [if_neg hE]
      show ((s1.internal_ports.set ai _).set bi
        { (s1.internal_ports.set ai { s1.internal_ports.getD ai default with connections := old_src }).getD bi default with
          connections := old_dst }) = _
      rw [getD_set_ne _ ai bi _ hne]

theorem restore_internal_ports (ip0 ip2 : List jack_port_internal_t) (ai bi : Nat)
    (old_src old_dst : List jack_connection_internal_t)
    (hai : ai < ip0.length) (hbi : bi < ip0.length)
    (hlen2 : ip2.length = ip0.length)
    (h_other : ∀ j, ai ≠ j → bi ≠ j → ip2[j]? = ip0[j]?)
    (h_ai : ip2.getD ai default = { ip0.getD ai default with connections := { source := ai, destination := bi } :: old_src })
    (h_bi : ip2.getD bi default = { ip0.getD bi default with connections := { source := ai, destination := bi } :: old_dst })
    (h_src : old_src = (ip0.getD ai default).connections)
    (h_dst : old_dst = (ip0.getD bi default).connections) :
    (ip2.set ai { ip2.getD ai default with connections := old_src }).set bi
      { ip2.getD bi default with connections := old_dst } = ip0 := by
  apply List.ext_getElem?
  intro j
  by_cases hbj : bi = j
  · subst hbj
    rw [List.getElem?_set_self (by rw [List.length_set, hlen2]; exact hbi)]
    rw [h_bi, h_dst]
    have : ip0[bi]? = some (ip0.getD bi default) := by
      rw [List.getD_eq_getElem?_getD]
      cases hx : ip0[bi]? with
      | none => exact absurd hx (by simp [hbi])
      | some p => rfl
    rw [this]
  · rw [List.getElem?_set_ne hbj]
    by_cases haj : ai = j
    · subst haj
      rw [List.getElem?_set_self (by rw [hlen2]; exact hai)]
      rw [h_ai, h_src]
      have : ip0[ai]? = some (ip0.getD ai default) := by
        rw [List.getD_eq_getElem?_getD]
        cases hx : ip0[ai]? with
        | none => exact absurd hx (by simp [hai])
        | some p => rfl
      rw [this]
    · rw [List.getElem?_set_ne haj]
      exact h_other j haj hbj

theorem restore_control_ports (cp0 cp3 : List jack_port_shared_t) (ip0 : List jack_port_internal_t)
    (hlat : compute_latency_ports cp0 ip0 = cp0)
    (hkey : cp3.map (fun q => (q.latency, q.flags, q.in_use, q.name)) =
            cp0.map (fun q => (q.latency, q.flags, q.in_use, q.name)))
    (hlen3 : cp3.length = cp0.length)
    (hslot : ∀ (j : Nat) (p0 : jack_port_shared_t), cp0[j]? = some p0 →
      (p0.in_use = true → ∃ t, cp3[j]? = some { p0 with total_latency := t }) ∧
      (p0.in_use = false → cp3[j]? = some p0)) :
    compute_latency_ports cp3 ip0 = cp0 := by
  apply List.ext_getElem?
  intro j
  rw [compute_latency_ports_getElem?]
  cases h0 : cp0[j]? with
  | none =>
    have hj : cp0.length ≤ j := by
      rw [← List.getElem?_eq_none_iff]
      exact h0
    have h3 : cp3[j]? = none := by
      rw [List.getElem?_eq_none_iff, hlen3]
      exact hj
    rw [h3]
    rfl
  | some p0 =>
    have hgo : total_latency_go cp3 ip0 j (if p0.flags.is_output then false else true) 9 =
        total_latency_go cp0 ip0 j (if p0.flags.is_output then false else true) 9 :=
      total_latency_go_congr cp3 cp0 ip0 hkey _ 9 j
    have hfix : compute_latency_port cp0 ip0 j p0 = p0 := by
      have h1 := congrArg (fun l => l[j]?) hlat
      simp only [compute_latency_ports_getElem?, h0] at h1
      exact Option.some.inj h1
    cases hu : p0.in_use with
    | true =>
      obtain ⟨t, h3⟩ := ((hslot j p0 h0).1 hu)
      rw [h3]
      have htot : total_latency_go cp0 ip0 j (if p0.flags.is_output then false else true) 9 =
          p0.total_latency := by
        have h2 : ({ p0 with total_latency := (total_latency_go cp0 ip0 j
            (if p0.flags.is_output then false else true) 9) } : jack_port_shared_t) = p0 := by
          rw [← hfix]
          unfold compute_latency_port
          rw [if_pos hu]
        exact congrArg jack_port_shared_t.total_latency h2
      show some (compute_latency_port cp3 ip0 j { p0 with total_latency := t }) = some p0
      unfold compute_latency_port
      rw [if_pos (show ({ p0 with total_latency := t } : jack_port_shared_t).in_use = true from hu)]
      show some ({ p0 with total_latency := (total_latency_go cp3 ip0 j
        (if p0.flags.is_output then false else true) 9) } : jack_port_shared_t) = some p0
      rw [hgo, htot]
    | false =>
      rw [(hslot j p0 h0).2 hu]
      show some (compute_latency_port cp3 ip0 j p0) = some p0
      unfold compute_latency_port
      rw [if_neg (by rw [hu]; exact Bool.false_ne_true)]

/-- Claim C9, amended: `connect(a,b); disconnect(a,b)` (both succeeding, on
distinct ports with parallel port tables) returns the persistent port graph
state — the shared port table, monitor_requests and total_latency included,
and every port's connection list and held buffer — to exactly its prior
value, provided (i) the prior total_latency values are those recomputed from
the prior connections (true of any state a sort has just left), and (ii) the
source port either retains another connection or already had
`monitor_requests = 0`: when the disconnect leaves the source port
connectionless the code zeroes its `monitor_requests`, so a nonzero prior
value is not restored. -/
theorem C9_amended_connect_disconnect_roundtrip
    (fifo_fd : Nat → Int) (fuel1 fuel2 : Nat) (e s1 s2 : jack_engine_t) (a b : String) (ai bi : Nat)
    (hai : jack_get_port_by_name e a = some ai)
    (hbi : jack_get_port_by_name e b = some bi)
    (hne : ai ≠ bi)
    (hlen : e.internal_ports.length = e.control_ports.length)
    (hconn : jack_port_do_connect fifo_fd fuel1 e a b = some (0, s1))
    (hdisc : jack_port_do_disconnect fifo_fd fuel2 s1 a b = some (0, s2))
    (hmon : connsAt e ai = [] → (sharedAt e ai).monitor_requests = 0)
    (hlat : compute_latency_ports e.control_ports e.internal_ports = e.control_ports) :
    s2.control_ports = e.control_ports ∧ s2.internal_ports = e.internal_ports := by
  have hai' : List.findIdx? (fun p => p.in_use && p.name == a) e.control_ports = some ai := hai
  have hbi' : List.findIdx? (fun p => p.in_use && p.name == b) e.control_ports = some bi := hbi
  obtain ⟨hai_lt, -, -⟩ := List.findIdx?_eq_some_iff_getElem.mp hai'
  obtain ⟨hbi_lt, -, -⟩ := List.findIdx?_eq_some_iff_getElem.mp hbi'
  have hai_ip : ai < e.internal_ports.length := by rw [hlen]; exact hai_lt
  have hbi_ip : bi < e.internal_ports.length := by rw [hlen]; exact hbi_lt
  simp only [jack_port_do_connect, hai, hbi] at hconn
  split at hconn
  · simp at hconn
  split at hconn
  · simp at hconn
  split at hconn
  · simp at hconn
  split at hconn
  · simp at hconn
  split at hconn
  · simp at hconn
  split at hconn
  · simp at hconn
  split at hconn
  · simp at hconn
  split at hconn
  · simp at hconn
  split at hconn
  · simp at hconn
  split at hconn
  · simp at hconn
  split at hconn
  · simp at hconn
  rename_i e3 hsort
  simp only [Option.some.injEq, Prod.mk.injEq, true_and] at hconn
  have hps1 : port_state s1 = port_state e3 := by
    rw [← hconn, send_notification_port_state, send_notification_port_state]
  have hps3 := sort_graph_port_state _ _ _ _ hsort
  obtain ⟨ip2, hip2⟩ : ∃ ip2, (setConns (setConns e bi ({ source := ai, destination := bi } :: connsAt e bi)) ai
      ({ source := ai, destination := bi } ::
        connsAt (setConns e bi ({ source := ai, destination := bi } :: connsAt e bi)) ai)).internal_ports = ip2 :=
    ⟨_, rfl⟩
  have hs1c : s1.control_ports = compute_latency_ports e.control_ports ip2 := by
    rw [← hip2]
    exact congrArg Prod.fst (hps1.trans hps3)
  have hs1i : s1.internal_ports = ip2 := by
    rw [← hip2]
    exact congrArg Prod.snd (hps1.trans hps3)
  have hlen2 : ip2.length = e.internal_ports.length := by
    rw [← hip2]
    simp only [setConns]
    rw [List.length_set, List.length_set]
  have h_other : ∀ j, ai ≠ j → bi ≠ j → ip2[j]? = e.internal_ports[j]? := by
    intro j hja hjb
    rw [← hip2]
    simp only [setConns]
    rw [List.getElem?_set_ne hja, List.getElem?_set_ne hjb]
  have h_ai : ip2.getD ai default =
      { e.internal_ports.getD ai default with
        connections := { source := ai, destination := bi } :: connsAt e ai } := by
    rw [← hip2]
    rw [show connsAt (setConns e bi ({ source := ai, destination := bi } :: connsAt e bi)) ai
        = connsAt e ai from connsAt_setConns_ne e bi ai _ (Ne.symm hne)]
    simp only [setConns]
    rw [getD_set_self _ ai _ (by rw [List.length_set]; exact hai_ip)]
    rw [getD_set_ne _ bi ai _ (Ne.symm hne)]
  have h_bi : ip2.getD bi default =
      { e.internal_ports.getD bi default with
        connections := { source := ai, destination := bi } :: connsAt e bi } := by
    rw [← hip2]
    simp only [setConns]
    rw [getD_set_ne _ ai bi _ hne]
    rw [getD_set_self _ bi _ hbi_ip]
  have hc_ai : connsAt s1 ai = { source := ai, destination := bi } :: connsAt e ai := by
    unfold connsAt
    rw [hs1i, h_ai]
    rfl
  have hc_bi : connsAt s1 bi = { source := ai, destination := bi } :: connsAt e bi := by
    unfold connsAt
    rw [hs1i, h_bi]
    rfl
  have hkey1 : s1.control_ports.map (fun q => (q.latency, q.flags, q.in_use, q.name)) =
      e.control_ports.map (fun q => (q.latency, q.flags, q.in_use, q.name)) := by
    rw [hs1c]
    exact map_key_compute_latency _ _ _ (fun q => rfl)
  have hbn1 : jack_get_port_by_name s1 a = some ai := by
    rw [byname_of_map_key s1 e a hkey1]
    exact hai
  have hbn2 : jack_get_port_by_name s1 b = some bi := by
    rw [byname_of_map_key s1 e b hkey1]
    exact hbi
  have hai_s1 : ai < s1.internal_ports.length := by
    rw [hs1i, hlen2]
    exact hai_ip
  obtain ⟨hcore0, hcoreC, hcoreI⟩ := disconnect_core_port_state s1 ai bi (connsAt e ai) (connsAt e bi)
    hne hai_s1 hc_ai hc_bi
  simp only [jack_port_do_disconnect, hbn1, hbn2, jack_port_disconnect_internal] at hdisc
  rw [if_pos trivial] at hdisc
  rw [Option.map_eq_some'] at hdisc
  obtain ⟨e6, hsort2, heq6⟩ := hdisc
  rw [Prod.mk.injEq] at heq6
  have hs2 : e6 = s2 := heq6.2
  have hps2 := sort_graph_port_state _ _ _ _ hsort2
  have hIP : (jack_port_disconnect_core s1 ai bi).2.internal_ports = e.internal_ports := by
    rw [hcoreI, hs1i]
    exact restore_internal_ports e.internal_ports ip2 ai bi (connsAt e ai) (connsAt e bi)
      hai_ip hbi_ip hlen2 h_other h_ai h_bi rfl rfl
  have hXslot : ∀ (j : Nat) (p0 : jack_port_shared_t), e.control_ports[j]? = some p0 →
      (compute_latency_ports e.control_ports ip2)[j]? = some (compute_latency_port e.control_ports ip2 j p0) := by
    intro j p0 h0
    rw [compute_latency_ports_getElem?, h0]
    rfl
  have hCP : compute_latency_ports (jack_port_disconnect_core s1 ai bi).2.control_ports
      (jack_port_disconnect_core s1 ai bi).2.internal_ports = e.control_ports := by
    rw [hIP, hcoreC, hs1c]
    by_cases hE : connsAt e ai = []
    · rw [if_pos hE]
      have hmon0 : ∀ (p0 : jack_port_shared_t), e.control_ports[ai]? = some p0 →
          p0.monitor_requests = 0 := by
        intro p0 h0
        have h1 := hmon hE
        unfold sharedAt at h1
        rw [List.getD_eq_getElem?_getD, h0] at h1
        exact h1
      apply restore_control_ports _ _ _ hlat
      · exact ((map_key_set_monitor_zero _ ai _ (fun q => rfl)).trans
          (map_key_compute_latency _ _ _ (fun q => rfl)))
      · rw [List.length_set]
        exact compute_latency_ports_length _ _
      · intro j p0 h0
        by_cases hja : ai = j
        · subst hja
          have hlt : ai < (compute_latency_ports e.control_ports ip2).length := by
            rw [compute_latency_ports_length]
            exact hai_lt
          have hgetD : (compute_latency_ports e.control_ports ip2).getD ai default =
              compute_latency_port e.control_ports ip2 ai p0 := by
            rw [List.getD_eq_getElem?_getD, hXslot ai p0 h0]
            rfl
          constructor
          · intro hu
            refine ⟨total_latency_go e.control_ports ip2 ai
              (if p0.flags.is_output then false else true) 9, ?_⟩
            rw [List.getElem?_set_self hlt, hgetD]
            have hcpu : compute_latency_port e.control_ports ip2 ai p0 = ({ p0 with total_latency := (total_latency_go e.control_ports ip2 ai
                (if p0.flags.is_output then false else true) 9) } : jack_port_shared_t) := by
              unfold compute_latency_port
              rw [if_pos hu]
            rw [hcpu, ← hmon0 p0 h0]
          · intro hu
            rw [List.getElem?_set_self hlt, hgetD]
            have hcpu : compute_latency_port e.control_ports ip2 ai p0 = p0 := by
              unfold compute_latency_port
              rw [if_neg (by rw [hu]; exact Bool.false_ne_true)]
            rw [hcpu, ← hmon0 p0 h0]
        · constructor
          · intro hu
            refine ⟨total_latency_go e.control_ports ip2 j
              (if p0.flags.is_output then false else true) 9, ?_⟩
            rw [List.getElem?_set_ne hja, hXslot j p0 h0]
            have hcpu : compute_latency_port e.control_ports ip2 j p0 = ({ p0 with total_latency := (total_latency_go e.control_ports ip2 j
                (if p0.flags.is_output then false else true) 9) } : jack_port_shared_t) := by
              unfold compute_latency_port
              rw [if_pos hu]
            rw [hcpu]
          · intro hu
            rw [List.getElem?_set_ne hja, hXslot j p0 h0]
            have hcpu : compute_latency_port e.control_ports ip2 j p0 = p0 := by
              unfold compute_latency_port
              rw [if_neg (by rw [hu]; exact Bool.false_ne_true)]
            rw [hcpu]
    · rw [if_neg hE]
      apply restore_control_ports _ _ _ hlat
      · exact map_key_compute_latency _ _ _ (fun q => rfl)
      · exact compute_latency_ports_length _ _
      · intro j p0 h0
        constructor
        · intro hu
          refine ⟨total_latency_go e.control_ports ip2 j
            (if p0.flags.is_output then false else true) 9, ?_⟩
          rw [hXslot j p0 h0]
          have hcpu : compute_latency_port e.control_ports ip2 j p0 = ({ p0 with total_latency := (total_latency_go e.control_ports ip2 j
              (if p0.flags.is_output then false else true) 9) } : jack_port_shared_t) := by
            unfold compute_latency_port
            rw [if_pos hu]
          rw [hcpu]
        · intro hu
          rw [hXslot j p0 h0]
          have hcpu : compute_latency_port e.control_ports ip2 j p0 = p0 := by
            unfold compute_latency_port
            rw [if_neg (by rw [hu]; exact Bool.false_ne_true)]
          rw [hcpu]
  constructor
  · rw [← hs2]
    exact (congrArg Prod.fst hps2).trans hCP
  · rw [← hs2]
    exact (congrArg Prod.snd hps2).trans hIP


/-- Counterexample to claim C9 as stated: on `engineConnect 3` (source port
"a" carrying `monitor_requests = 3` and no connection), the round trip
`connect("a","b"); disconnect("a","b")` succeeds but leaves the source
port's `monitor_requests` at 0, not its prior 3 — the port graph is not
returned to exactly its prior state. -/
theorem C9_counterexample_monitor_requests_cleared :
    ((jack_port_do_connect fifoId 20 (engineConnect 3) "a" "b").bind
      (fun r => jack_port_do_disconnect fifoId 20 r.2 "a" "b")).map
      (fun r => (r.1, (sharedAt r.2 0).monitor_requests)) = some (0, 0) ∧
    (sharedAt (engineConnect 3) 0).monitor_requests = 3 := by
  decide

/-- Witness for C9 (amended) on `engineConnect 0`: the round trip restores
the shared and private port tables exactly. -/
theorem C9_amended_connect_disconnect_roundtrip_witness :
    engineConnectDone.control_ports = (engineConnect 0).control_ports ∧
    engineConnectDone.internal_ports = (engineConnect 0).internal_ports :=
  C9_amended_connect_disconnect_roundtrip fifoId 20 20 (engineConnect 0) engineConnectMid
    engineConnectDone "a" "b" 0 1 (by decide) (by decide) (by decide) (by decide)
    (by decide) (by decide) (by decide) (by decide)
